import Mathlib

/-!
Shallow embedding of the decky-wine-cellar backend
(src/backend/src/steam_util.rs and src/backend/src/wine_cask/mod.rs).

Modelling conventions:
* Filesystem paths are lists of path components (`List String`); an absolute
  Rust path such as `/lib1/steamapps` is the component list `["lib1", "steamapps"]`.
* The filesystem is a finite tree `Fs` of named entries.  A directory carries a
  `readable` flag: `fs::read_dir` succeeds exactly on readable directories.
* The external text key-value parser (`keyvalues_parser`, out of scope per the
  design document) is modelled by storing, for each text file, the outcome of
  `Vdf::parse` on its contents.  `fs::read_to_string` composed with `Vdf::parse`
  therefore reads that stored outcome; a read failure (missing file, directory
  in place of a file, unreadable file, non-text bytes) is `none`.
* The binary shortcuts decoder `binary_to_json` lives in
  src/backend/src/vdf_util.rs, which is not part of the sources under review;
  it is modelled from the spec (section 4.3): it yields a generic tree
  (`Json`) or a decode error, and decoding an empty buffer or text bytes is a
  decode error (missing terminator / invalid tag byte).  Each binary file
  stores its decode outcome.
* Rust `Result`-returning functions that can also call `.unwrap()` (and hence
  abort) are embedded in `PResult`, a result type with a third outcome
  `panicked` standing for a process abort.  `Option.unwrap()` and
  `Result.unwrap()` on an error are `panicked`.
* `u64` values are natural numbers; `str::parse::<u64>` is modelled by
  `parse_u64`, failing on non-digit strings and on overflow past 2^64.
* The `HashMap<u64, String>` built by `get_compatibility_tools_mappings` is an
  association list updated with replace-on-repeat insertion, in iteration
  order of the document object.
-/

namespace DeckyWineCellar

/-- A parsed VDF value, as produced by the external `keyvalues_parser` crate:
either a string leaf or an object.  An object maps each key to the list of
values the document gave that key (the crate's `Obj` is a map from keys to
`Vec<Value>`); entries are kept in the map's iteration order. -/
inductive VdfValue where
  | str (s : String)
  | obj (entries : List (String × List VdfValue))

/-- A parsed VDF document (`keyvalues_parser::Vdf`): a root key and its value. -/
structure Vdf where
  key : String
  value : VdfValue

/-- `Value::get_obj`. -/
def VdfValue.get_obj : VdfValue → Option (List (String × List VdfValue))
  | .obj es => some es
  | .str _ => none

/-- `Value::get_str`. -/
def VdfValue.get_str : VdfValue → Option String
  | .str s => some s
  | .obj _ => none

/-- `Obj::get(key)`: the values stored at a key (keys are unique in the map). -/
def objGet (es : List (String × List VdfValue)) (k : String) : Option (List VdfValue) :=
  (es.find? (fun e => e.1 == k)).map (fun e => e.2)

/-- `Obj::keys()`, in iteration order. -/
def objKeys (es : List (String × List VdfValue)) : List String :=
  es.map (fun e => e.1)

/-- `Obj::values()`, in iteration order. -/
def objValues (es : List (String × List VdfValue)) : List (List VdfValue) :=
  es.map (fun e => e.2)

/-- A generic tree decoded from the binary shortcuts format, mirroring the
`serde_json::Value` returned by `binary_to_json`. -/
inductive Json where
  | str (s : String)
  | num (n : Nat)
  | obj (fields : List (String × Json))

/-- `serde_json::Value::get(key)` on an object. -/
def Json.get : Json → String → Option Json
  | .obj fs, k => (fs.find? (fun e => e.1 == k)).map (fun e => e.2)
  | .str _, _ => none
  | .num _, _ => none

/-- `serde_json::Value::as_object`. -/
def Json.as_object : Json → Option (List (String × Json))
  | .obj fs => some fs
  | .str _ => none
  | .num _ => none

/-- `serde_json::Value::as_str`. -/
def Json.as_str : Json → Option String
  | .str s => some s
  | .obj _ => none
  | .num _ => none

/-- `serde_json::Value::as_u64`. -/
def Json.as_u64 : Json → Option Nat
  | .num n => some n
  | .str _ => none
  | .obj _ => none

/-- Contents of one file, abstracted to the views the program takes of it:
a text file carries the outcome of the external text parser on its bytes, a
binary file the outcome of the spec-modelled binary decoder, and an
unreadable file fails every read. -/
inductive FileData where
  | text (parsed : Except String Vdf)
  | binary (decoded : Except String Json)
  | unreadable

/-- A filesystem tree.  `readable` gates `fs::read_dir` only; existence tests
and path traversal are unaffected by it. -/
inductive Fs where
  | file (d : FileData)
  | dir (readable : Bool) (entries : List (String × Fs))

/-- Path traversal (`Path::exists` is `(lookup _).isSome`). -/
def Fs.lookup : Fs → List String → Option Fs
  | e, [] => some e
  | .file _, _ :: _ => none
  | .dir _ es, n :: p =>
    match es.find? (fun x => x.1 == n) with
    | some x => Fs.lookup x.2 p
    | none => none

/-- `fs::read_dir`: the listing of a readable directory, `none` on a missing
path, a file, or an unreadable directory. -/
def Fs.read_dir (fs : Fs) (p : List String) : Option (List (String × Fs)) :=
  match fs.lookup p with
  | some (.dir true es) => some es
  | some (.dir false _) => none
  | some (.file _) => none
  | none => none

/-- `fs::read_to_string` composed with `Vdf::parse`: `some` holds the stored
parse outcome of a text file; every read failure is `none`. -/
def Fs.readVdfText (fs : Fs) (p : List String) : Option (Except String Vdf) :=
  match fs.lookup p with
  | some (.file (.text pr)) => some pr
  | some (.file (.binary _)) => none
  | some (.file .unreadable) => none
  | some (.dir _ _) => none
  | none => none

/-- `File::open` + `read_to_end` + `binary_to_json` on a shortcuts file entry.
A failed open or read leaves the buffer empty and the spec-modelled decoder
(section 4.3) rejects an empty buffer (missing object terminator); text bytes
fail on the first tag byte. -/
def Fs.readBinaryJson : Fs → Except String Json
  | .file (.binary d) => d
  | .file .unreadable => .error "empty buffer"
  | .file (.text _) => .error "invalid tag byte"
  | .dir _ _ => .error "empty buffer"

/-- `SteamUtilError` (src/backend/src/steam_util.rs). -/
inductive SteamUtilError where
  | HomeDirectoryNotFound
  | SteamDirectoryNotFound
  | CompatibilityToolsDirectoryCreationFailed
  | SteamAppsDirectoryNotFound
  | LibraryFoldersVdfNotFound
  | SteamConfigVdfNotFound
  | VdfParsingError (msg : String)
deriving DecidableEq, Repr

/-- Outcome of running a fallible Rust function that may also abort: a value,
a returned error, or a panic (`.unwrap()` on `None`/`Err`, `expect`, ...). -/
inductive PResult (α : Type) where
  | ok (a : α)
  | err (e : SteamUtilError)
  | panicked
deriving DecidableEq, Repr

/-- `Option::unwrap`, and `Result::unwrap` after a `map_err`: the happy value
or a panic. -/
def unwrapO {α : Type} : Option α → PResult α
  | some a => .ok a
  | none => .panicked

/-- `Result::unwrap` on an embedded result: a returned error becomes a panic. -/
def unwrapR {α : Type} : PResult α → PResult α
  | .ok a => .ok a
  | .err _ => .panicked
  | .panicked => .panicked

/-- `SteamApp` (src/backend/src/steam_util.rs); `PartialEq` is field-wise. -/
structure SteamApp where
  shortcut : Bool
  app_id : Nat
  name : String
deriving DecidableEq, Repr

instance : BEq SteamApp := ⟨fun a b => decide (a = b)⟩

instance : LawfulBEq SteamApp where
  eq_of_beq h := by simpa [BEq.beq] using h
  rfl := by simp [BEq.beq]

/-- `CompatibilityTool` (src/backend/src/steam_util.rs). -/
structure CompatibilityTool where
  path : List String
  directory_name : String
  internal_name : String
  display_name : String
  from_os_list : String
  to_os_list : String
deriving DecidableEq, Repr

/-- `str::parse::<u64>` on a decimal string: all characters must be digits,
the string non-empty, the value below `2^64` (a leading `+` is not
modelled). -/
def parse_u64 (s : String) : Option Nat :=
  if s.data.isEmpty then none
  else if s.data.all (fun c => c.isDigit) then
    let n := s.data.foldl (fun acc c => acc * 10 + (c.toNat - 48)) 0
    if n < 2 ^ 64 then some n else none
  else none

/-- Splitting a path character list at `/`, dropping empty components;
`acc` holds the current component reversed. -/
def splitPathChars : List Char → List Char → List String
  | [], acc => if acc.isEmpty then [] else [String.mk acc.reverse]
  | c :: cs, acc =>
    if c = '/' then
      (if acc.isEmpty then [] else [String.mk acc.reverse]) ++ splitPathChars cs []
    else
      splitPathChars cs (c :: acc)

/-- Split a Rust path string into components (`PathBuf::from` + joins). -/
def splitPath (s : String) : List String :=
  splitPathChars s.data []

namespace SteamUtil

/-- The fixed candidate list of `find_steam_directory`. -/
def possible_steam_roots : List String :=
  [".local/share/Steam",
   ".steam/root",
   ".steam/steam",
   ".steam/debian-installation",
   ".var/app/com.valvesoftware.Steam/data/Steam"]

/-- The probe loop of `find_steam_directory`: accept the first candidate whose
`config` subdirectory holds both `config.vdf` and `libraryfolders.vdf`. -/
def find_steam_directory_loop (fs : Fs) (user_profile : List String) :
    List String → Except SteamUtilError (List String)
  | [] => .error .SteamDirectoryNotFound
  | steam_dir :: rest =>
    let expanded_steam_dir := user_profile ++ splitPath steam_dir
    if (fs.lookup (expanded_steam_dir ++ ["config", "config.vdf"])).isSome
        && (fs.lookup (expanded_steam_dir ++ ["config", "libraryfolders.vdf"])).isSome then
      .ok expanded_steam_dir
    else
      find_steam_directory_loop fs user_profile rest

/-- `SteamUtil::find_steam_directory`.  The environment is explicit: the
optional argument, then the `USERPROFILE` and `HOME` variables. -/
def find_steam_directory (fs : Fs) (user_home_directory userprofile_env home_env : Option String) :
    Except SteamUtilError (List String) :=
  let user_profile :=
    (user_home_directory.map splitPath).orElse (fun _ =>
      (userprofile_env.map splitPath).orElse (fun _ => home_env.map splitPath))
  match user_profile with
  | some up => find_steam_directory_loop fs up possible_steam_roots
  | none => .error .HomeDirectoryNotFound

/-- Extraction of one top-level entry of the library-folders document: the
value must be an object whose `path` field is a string.  A `none` anywhere in
this chain is an `.unwrap()` panic in the source. -/
def library_folder_path (value : List VdfValue) : Option String := do
  let v0 ← value.get? 0
  let key_obj ← v0.get_obj
  let pv ← objGet key_obj "path"
  let p0 ← pv.get? 0
  p0.get_str

/-- The per-entry loop of `list_library_folders`: non-empty paths are
collected in order, every missing piece panics. -/
def library_folder_paths : List (List VdfValue) → PResult (List String)
  | [] => .ok []
  | value :: rest =>
    match library_folder_path value with
    | none => .panicked
    | some path =>
      match library_folder_paths rest with
      | .ok more => if path == "" then .ok more else .ok (path :: more)
      | .err e => .err e
      | .panicked => .panicked

/-- `SteamUtil::list_library_folders`. -/
def list_library_folders (fs : Fs) (steam_path : List String) : PResult (List String) :=
  if (fs.lookup (steam_path ++ ["steamapps"])).isSome = false then
    .err .SteamAppsDirectoryNotFound
  else if (fs.lookup (steam_path ++ ["steamapps", "libraryfolders.vdf"])).isSome = false then
    .err .LibraryFoldersVdfNotFound
  else
    match fs.readVdfText (steam_path ++ ["steamapps", "libraryfolders.vdf"]) with
    | none => .panicked
    | some (.error _) => .panicked
    | some (.ok vdf) =>
      match vdf.value.get_obj with
      | none => .panicked
      | some app_state_obj => library_folder_paths (objValues app_state_obj)

/-- `Path::extension` of a file name: the part after the last dot, none when
there is no dot or the stem before the last dot is empty. -/
def fileExtension (n : String) : Option String :=
  match n.data.reverse.findIdx? (fun c => c = '.') with
  | none => none
  | some i =>
    if (n.data.reverse.drop (i + 1)).isEmpty then none
    else some (String.mk ((n.data.reverse.take i).reverse))

/-- Field extraction from one parsed `appmanifest_*.acf` document (`appid` as
a decimal string, `name`); a `none` anywhere is an `.unwrap()` panic. -/
def manifest_fields (vdf : Vdf) : Option SteamApp := do
  let app_state_obj ← vdf.value.get_obj
  let av ← objGet app_state_obj "appid"
  let a0 ← av.get? 0
  let astr ← a0.get_str
  let app_id ← parse_u64 astr
  let nv ← objGet app_state_obj "name"
  let n0 ← nv.get? 0
  let name ← n0.get_str
  pure { shortcut := false, app_id := app_id, name := name }

/-- Parsing one `appmanifest_*.acf` inside `find_installed_application`'s map:
read, parse, and extract `appid` and `name`, panicking on every failure. -/
def parse_app_manifest (fs : Fs) (dir : List String) (n : String) : PResult SteamApp :=
  match fs.readVdfText (dir ++ [n]) with
  | none => .panicked
  | some (.error _) => .panicked
  | some (.ok vdf) => unwrapO (manifest_fields vdf)

/-- The `.map(...).collect()` drive of `find_installed_application`: manifests
are parsed in directory order, the first failure aborting. -/
def collect_manifests (fs : Fs) (dir : List String) : List String → PResult (List SteamApp)
  | [] => .ok []
  | n :: ns =>
    match parse_app_manifest fs dir n with
    | .ok a =>
      match collect_manifests fs dir ns with
      | .ok rest => .ok (a :: rest)
      | .err e => .err e
      | .panicked => .panicked
    | .err e => .err e
    | .panicked => .panicked

/-- `SteamUtil::find_installed_application`.  `fs::read_dir` failure panics
(the mapped error is immediately `.unwrap()`ed); entries whose name has
extension `acf` are parsed in order. -/
def find_installed_application (fs : Fs) (steam_apps_directory : List String) :
    PResult (List SteamApp) :=
  match fs.read_dir steam_apps_directory with
  | none => .panicked
  | some entries =>
    collect_manifests fs steam_apps_directory
      ((entries.map (fun e => e.1)).filter (fun n => (fileExtension n).getD "" == "acf"))

/-- The folder loop of `list_installed_applications`: folders whose
`steamapps` subdirectory does not exist are skipped (`continue`), a folder
error aborts with that error, results are appended in scan order. -/
def installed_from_folders (fs : Fs) : List String → PResult (List SteamApp)
  | [] => .ok []
  | f :: rest =>
    let library_folder := splitPath f ++ ["steamapps"]
    if (fs.lookup library_folder).isSome = false then
      installed_from_folders fs rest
    else
      match find_installed_application fs library_folder with
      | .ok steam_apps =>
        match installed_from_folders fs rest with
        | .ok more => .ok (steam_apps ++ more)
        | .err e => .err e
        | .panicked => .panicked
      | .err e => .err e
      | .panicked => .panicked

/-- `SteamUtil::list_installed_applications`. -/
def list_installed_applications (fs : Fs) (steam_path : List String) :
    PResult (List SteamApp) :=
  match list_library_folders fs steam_path with
  | .ok library_folders => installed_from_folders fs library_folders
  | .err e => .err e
  | .panicked => .panicked

/-- Replace-on-repeat insertion into the association list modelling the
`HashMap<u64, String>` of `get_compatibility_tools_mappings`. -/
def hashInsert (m : List (Nat × String)) (k : Nat) (v : String) : List (Nat × String) :=
  (m.filter (fun e => e.1 ≠ k)) ++ [(k, v)]

/-- The per-entry loop over the `CompatToolMapping` object: parse the key as a
`u64`, extract the `name` string (each missing piece panicking), and keep the
entry when the name is non-empty. -/
def compat_mapping_fold :
    List (String × List VdfValue) → List (Nat × String) → PResult (List (Nat × String))
  | [], acc => .ok acc
  | (key, value) :: rest, acc =>
    match parse_u64 key with
    | none => .panicked
    | some k =>
      match (value.get? 0).bind VdfValue.get_obj with
      | none => .panicked
      | some key_obj =>
        match (objGet key_obj "name").bind (fun nv => (nv.get? 0).bind VdfValue.get_str) with
        | none => .panicked
        | some compat_tool_name =>
          if compat_tool_name == "" then compat_mapping_fold rest acc
          else compat_mapping_fold rest (hashInsert acc k compat_tool_name)

/-- Navigation from a parsed config document down to the `CompatToolMapping`
object; a `none` anywhere is an `.unwrap()` panic in the source.  Only
`Valve` has a lowercase fallback. -/
def compat_tool_mapping_obj (config_vdf : Vdf) : Option (List (String × List VdfValue)) := do
  let root ← config_vdf.value.get_obj
  let sw ← objGet root "Software"
  let sw0 ← sw.get? 0
  let software_vdf_obj ← sw0.get_obj
  let valve ← (objGet software_vdf_obj "Valve").or (objGet software_vdf_obj "valve")
  let v0 ← valve.get? 0
  let vobj ← v0.get_obj
  let steam ← objGet vobj "Steam"
  let s0 ← steam.get? 0
  let sobj ← s0.get_obj
  let ctm ← objGet sobj "CompatToolMapping"
  let c0 ← ctm.get? 0
  c0.get_obj

/-- Navigation down to the `CompatToolMapping` object and the fold over its
entries; an absent path component panics. -/
def compat_mappings_of_vdf (config_vdf : Vdf) : PResult (List (Nat × String)) :=
  match compat_tool_mapping_obj config_vdf with
  | none => .panicked
  | some compat_tools_mappings => compat_mapping_fold compat_tools_mappings []

/-- `SteamUtil::get_compatibility_tools_mappings`.  An absent `config.vdf`
returns `SteamConfigVdfNotFound`; so does a file that exists but cannot be
read (the `else` of the `read_to_string` match); a parse failure returns
`VdfParsingError` carrying the path. -/
def get_compatibility_tools_mappings (fs : Fs) (steam_path : List String) :
    PResult (List (Nat × String)) :=
  let steam_config_file := steam_path ++ ["config", "config.vdf"]
  if (fs.lookup steam_config_file).isSome = false then
    .err .SteamConfigVdfNotFound
  else
    match fs.readVdfText steam_config_file with
    | none => .err .SteamConfigVdfNotFound
    | some (.error _) => .err (.VdfParsingError (String.intercalate "/" steam_config_file))
    | some (.ok config_vdf) => compat_mappings_of_vdf config_vdf

/-- Extract a string field `k` of the inner tool object (`get`, `get(0)`,
`get_str`, each `.unwrap()`ed in the source). -/
def getStrField (o : List (String × List VdfValue)) (k : String) : Option String := do
  let v ← objGet o k
  let v0 ← v.get? 0
  v0.get_str

/-- Field extraction of `read_compatibility_tool_from_vdf_path` from the
parsed descriptor and the descriptor's path; a `none` anywhere is an
`.unwrap()` panic in the source. -/
def compat_tool_fields (compat_tool_vdf : List String) (vdf : Vdf) :
    Option CompatibilityTool := do
  let rootObj ← vdf.value.get_obj
  let firstVal ← (objValues rootObj).get? 0
  let fv0 ← firstVal.get? 0
  let compat_tool_obj ← fv0.get_obj
  let path := compat_tool_vdf.dropLast
  let directory_name ← path.getLast?
  let internal_name ← (objKeys compat_tool_obj).get? 0
  let ivv ← (objValues compat_tool_obj).get? 0
  let iv0 ← ivv.get? 0
  let internal_value ← iv0.get_obj
  let display_name ← getStrField internal_value "display_name"
  let from_os_list ← getStrField internal_value "from_oslist"
  let to_os_list ← getStrField internal_value "to_oslist"
  pure { path := path, directory_name := directory_name, internal_name := internal_name,
         display_name := display_name, from_os_list := from_os_list,
         to_os_list := to_os_list }

/-- `SteamUtil::read_compatibility_tool_from_vdf_path`.  Every read, parse or
extraction failure panics (`map_err(..).unwrap()` / `.unwrap()`). -/
def read_compatibility_tool_from_vdf_path (fs : Fs) (compat_tool_vdf : List String) :
    PResult CompatibilityTool :=
  match fs.readVdfText compat_tool_vdf with
  | none => .panicked
  | some (.error _) => .panicked
  | some (.ok vdf) => unwrapO (compat_tool_fields compat_tool_vdf vdf)

/-- Does the filesystem entry describe a directory? (`metadata().is_dir()`). -/
def isDirEntry : Fs → Bool
  | .dir _ _ => true
  | .file _ => false

/-- The `.map(...).collect()` drive of `list_compatibility_tools`: each
qualifying subdirectory's descriptor is read and `.unwrap()`ed in order. -/
def collect_compat_tools (fs : Fs) (ctd : List String) :
    List (String × Fs) → PResult (List CompatibilityTool)
  | [] => .ok []
  | e :: es =>
    match unwrapR (read_compatibility_tool_from_vdf_path fs (ctd ++ [e.1, "compatibilitytool.vdf"])) with
    | .ok t =>
      match collect_compat_tools fs ctd es with
      | .ok rest => .ok (t :: rest)
      | .err e2 => .err e2
      | .panicked => .panicked
    | .err e2 => .err e2
    | .panicked => .panicked

/-- `SteamUtil::list_compatibility_tools`, including the directory creation of
`get_steam_compatibility_tools_directory`: when `compatibilitytools.d` does not
exist it is created if `steam_path` exists (the freshly created directory lists
empty; a failed creation — `steam_path` being a file — panics through
`map_err(..).unwrap()`), and when `steam_path` does not exist either, the
subsequent `fs::read_dir(..).unwrap()` on the still-missing path panics. -/
def list_compatibility_tools (fs : Fs) (steam_path : List String) :
    PResult (List CompatibilityTool) :=
  let ctd := steam_path ++ ["compatibilitytools.d"]
  if (fs.lookup ctd).isSome = false then
    match fs.lookup steam_path with
    | some (.dir _ _) => .ok []
    | some (.file _) => .panicked
    | none => .panicked
  else
    match fs.read_dir ctd with
    | none => .panicked
    | some entries =>
      collect_compat_tools fs ctd
        (entries.filter (fun e =>
          isDirEntry e.2 && ((e.2).lookup ["compatibilitytool.vdf"]).isSome))

/-- The extraction of one shortcut record (`AppName` string, `appid` integer,
each `.unwrap()`ed in the source) from the decoded tree. -/
def shortcut_record (f : Json) : Option SteamApp := do
  let av ← f.get "AppName"
  let app_name ← av.as_str
  let iv ← f.get "appid"
  let app_id ← iv.as_u64
  pure { shortcut := true, app_id := app_id, name := app_name }

/-- The `.map(...).collect()` over the shortcut records, in object iteration
order, the first malformed record panicking. -/
def shortcut_entries : List Json → PResult (List SteamApp)
  | [] => .ok []
  | f :: rest =>
    match shortcut_record f with
    | none => .panicked
    | some a =>
      match shortcut_entries rest with
      | .ok more => .ok (a :: more)
      | .err e => .err e
      | .panicked => .panicked

/-- Projection of a successfully decoded shortcuts document: the `shortcuts`
object's values, each mapped to a `SteamApp` (missing pieces panic). -/
def shortcut_apps_of_json (j : Json) : PResult (List SteamApp) :=
  match (j.get "shortcuts").bind Json.as_object with
  | none => .panicked
  | some fields => shortcut_entries (fields.map (fun e => e.2))

/-- Processing of one `userdata` entry in `list_shortcuts`: non-directories
and users without a `config/shortcuts.vdf` are skipped, a failed read or
decode is logged and skipped; only a decoded document of unexpected shape
panics. -/
def user_shortcut_apps (u : String × Fs) : PResult (List SteamApp) :=
  match isDirEntry u.2 with
  | false => .ok []
  | true =>
    match (u.2).lookup ["config", "shortcuts.vdf"] with
    | none => .ok []
    | some sf =>
      match sf.readBinaryJson with
      | .error _ => .ok []
      | .ok j => shortcut_apps_of_json j

/-- The user loop of `list_shortcuts`, appending each user's shortcut apps. -/
def shortcuts_fold : List (String × Fs) → PResult (List SteamApp)
  | [] => .ok []
  | u :: us =>
    match user_shortcut_apps u with
    | .ok a =>
      match shortcuts_fold us with
      | .ok rest => .ok (a ++ rest)
      | .err e => .err e
      | .panicked => .panicked
    | .err e => .err e
    | .panicked => .panicked

/-- `SteamUtil::list_shortcuts`.  A missing or unreadable `userdata`
directory skips the whole loop (`if let Ok(entries)`), still returning `Ok`. -/
def list_shortcuts (fs : Fs) (steam_path : List String) : PResult (List SteamApp) :=
  match fs.read_dir (steam_path ++ ["userdata"]) with
  | none => .ok []
  | some entries => shortcuts_fold entries

/-- The inner key loop of `list_installed_applications_by_userdata`: each app
key is parsed as `u64` (panicking otherwise); an installed app with that id
not already collected is appended. -/
def userdata_keys_fold (installed : List SteamApp) :
    List String → List SteamApp → PResult (List SteamApp)
  | [], acc => .ok acc
  | key :: rest, acc =>
    match parse_u64 key with
    | none => .panicked
    | some k =>
      match installed.find? (fun app => app.app_id == k && !(acc.contains app)) with
      | some app => userdata_keys_fold installed rest (acc ++ [app])
      | none => userdata_keys_fold installed rest acc

/-- Navigation of one user's parsed `localconfig.vdf` down to its `Apps`
object (`Software`, `Valve`/`valve`, `Steam`, `Apps`/`apps`); a `none`
anywhere is an `.unwrap()` panic in the source. -/
def userdata_apps_obj (local_config_vdf : Vdf) : Option (List (String × List VdfValue)) := do
  let root ← local_config_vdf.value.get_obj
  let sw ← objGet root "Software"
  let sw0 ← sw.get? 0
  let software_vdf_obj ← sw0.get_obj
  let valve ← (objGet software_vdf_obj "Valve").or (objGet software_vdf_obj "valve")
  let v0 ← valve.get? 0
  let vobj ← v0.get_obj
  let steam ← objGet vobj "Steam"
  let s0 ← steam.get? 0
  let sobj ← s0.get_obj
  let apps ← (objGet sobj "Apps").or (objGet sobj "apps")
  let a0 ← apps.get? 0
  a0.get_obj

/-- One user's contribution in `list_installed_applications_by_userdata`:
navigate to the `Apps` object (panicking on absence), then run the key loop
against the accumulated list. -/
def userdata_user_apps (installed : List SteamApp) (local_config_vdf : Vdf)
    (acc : List SteamApp) : PResult (List SteamApp) :=
  match userdata_apps_obj local_config_vdf with
  | none => .panicked
  | some aobj => userdata_keys_fold installed (objKeys aobj) acc

/-- The user loop of `list_installed_applications_by_userdata`: only
directories with a `config/localconfig.vdf` are considered, an unreadable or
unparseable local config is skipped (`if let Ok`). -/
def userdata_users_fold (installed : List SteamApp) :
    List (String × Fs) → List SteamApp → PResult (List SteamApp)
  | [], acc => .ok acc
  | u :: us, acc =>
    if isDirEntry u.2 && ((u.2).lookup ["config", "localconfig.vdf"]).isSome then
      match (u.2).readVdfText ["config", "localconfig.vdf"] with
      | none => userdata_users_fold installed us acc
      | some (.error _) => userdata_users_fold installed us acc
      | some (.ok local_config_vdf) =>
        match userdata_user_apps installed local_config_vdf acc with
        | .ok acc2 => userdata_users_fold installed us acc2
        | .err e => .err e
        | .panicked => .panicked
    else
      userdata_users_fold installed us acc

/-- `SteamUtil::list_installed_applications_by_userdata`.  The guard on a
missing `userdata` directory is commented out in the source, so
`fs::read_dir(..).unwrap()` panics there. -/
def list_installed_applications_by_userdata (fs : Fs) (steam_path : List String) :
    PResult (List SteamApp) :=
  match list_installed_applications fs steam_path with
  | .err e => .err e
  | .panicked => .panicked
  | .ok installed =>
    match fs.read_dir (steam_path ++ ["userdata"]) with
    | none => .panicked
    | some entries => userdata_users_fold installed entries []

end SteamUtil

namespace WineCask

/-- `generate_compatibility_tool_vdf` (src/backend/src/wine_cask/mod.rs)
composed with the external text parser: the source substitutes
`internal_name` and `display_name` into a fixed text template and writes it;
since the text key-value grammar parser is an external, correct library
(design document sections 1 and 6), writing the template and parsing it back
is modelled as the document the template denotes.  The claim's side condition
that the names contain no quote and no control characters is what keeps the
substitution faithful to this document at the text level. -/
def generate_compatibility_tool_vdf (internal_name display_name : String) : Vdf :=
  { key := "compatibilitytools"
    value := .obj [("compat_tools", [.obj [(internal_name, [.obj
      [("install_path", [.str "."]),
       ("display_name", [.str display_name]),
       ("from_oslist", [.str "windows"]),
       ("to_oslist", [.str "linux"])]])]])] }

/-- A directory tree as seen by `recursive_delete_dir_entry`: entry names are
irrelevant to deletion and omitted.  `removable` tells whether
`fs::remove_file` / `fs::remove_dir` succeeds on the node, `readable` whether
`fs::read_dir` succeeds. -/
inductive DirEntry where
  | file (removable : Bool)
  | dir (readable : Bool) (removable : Bool) (children : List DirEntry)

mutual

/-- `recursive_delete_dir_entry`: a directory's children are deleted first (in
order, the first error aborting via `?`), then the directory itself; a plain
file is removed directly.  The result is the filesystem residue at the entry
(`none` when the entry is gone) paired with the success of the call. -/
def deleteEntry : DirEntry → Option DirEntry × Bool
  | .file rm => if rm then (none, true) else (some (.file rm), false)
  | .dir rd rm cs =>
    if rd then
      match deleteChildren cs with
      | (rest, true) =>
        if rm then (none, true) else (some (.dir rd rm rest), false)
      | (rest, false) => (some (.dir rd rm rest), false)
    else
      (some (.dir rd rm cs), false)

/-- The `for entry in fs::read_dir(..)?` loop: children after a failing one
are left untouched. -/
def deleteChildren : List DirEntry → List DirEntry × Bool
  | [] => ([], true)
  | c :: cs =>
    match deleteEntry c with
    | (res, true) =>
      match deleteChildren cs with
      | (rest, ok) => (res.toList ++ rest, ok)
    | (res, false) => (res.toList ++ cs, false)

end

/-- Modelled from the spec: the task kinds of the orchestrator (design
document section 3, "task kind \x7binstall, uninstall\x7d"); the source file
declaring `TaskType` (wine_cask/wine_cask.rs) is not among the sources under
review, and src/backend/src/wine_cask/mod.rs names its
`InstallCompatibilityTool` variant. -/
inductive TaskType where
  | InstallCompatibilityTool
  | UninstallCompatibilityTool
deriving DecidableEq, Repr

/-- A queued task: its kind and the install payload option, as used by
`process_queue` (`task.r#type`, `task.install.unwrap()`).  The payload type is
abstract. -/
structure Task (π : Type) where
  type : TaskType
  install : Option π

/-- What one loop iteration of `process_queue` does with a dequeued task: the
possible external-handler invocations (design document section 6: install
handler taking the payload and the peer set, uninstall handler taking the
payload), no invocation at all, or a panic. -/
inductive HandlerCall (π ρ : Type) where
  | installCall (payload : π) (peers : ρ)
  | uninstallCall (payload : π)
  | noCall
  | panicked
deriving DecidableEq, Repr

/-- The dispatch of one dequeued task in the loop body of `process_queue`
(src/backend/src/wine_cask/mod.rs, lines 72-85): only a task whose type is
`InstallCompatibilityTool` invokes a handler, with `task.install.unwrap()` and
the peer map; every other task type falls through the `if` with no effect. -/
def process_queue_step {π ρ : Type} (task : Task π) (peer_map : ρ) : HandlerCall π ρ :=
  if task.type = TaskType.InstallCompatibilityTool then
    match task.install with
    | some payload => .installCall payload peer_map
    | none => .panicked
  else
    .noCall

end WineCask

/-! ### Spec-side helper definitions and concrete fixtures -/

/-- Is a PResult a returned (inspectable) error? -/
def PResult.isErr {α : Type} : PResult α → Bool
  | .err _ => true
  | .ok _ => false
  | .panicked => false

/-- The list under an `ok`, and `[]` otherwise. -/
def PResult.okOrNil {α : Type} : PResult (List α) → List α
  | .ok l => l
  | .err _ => []
  | .panicked => []

/-- The acceptance test of the directory locator, as the claim words it: the
candidate's `config` subdirectory must contain both the main config document
and the library-folders document. -/
def steamRootQualifies (fs : Fs) (user_profile : List String) (steam_dir : String) : Bool :=
  (fs.lookup (user_profile ++ splitPath steam_dir ++ ["config", "config.vdf"])).isSome &&
  (fs.lookup (user_profile ++ splitPath steam_dir ++ ["config", "libraryfolders.vdf"])).isSome

/-- An `appmanifest_<id>.acf` document. -/
def manifestDoc (appid name : String) : Vdf :=
  { key := "AppState", value := .obj [("appid", [.str appid]), ("name", [.str name])] }

/-- A `libraryfolders.vdf` document listing two folders. -/
def libFoldersDoc2 (p0 p1 : String) : Vdf :=
  { key := "libraryfolders"
    value := .obj [("0", [.obj [("path", [.str p0])]]), ("1", [.obj [("path", [.str p1])]])] }

/-- A `config.vdf` document with the canonical nested path down to a
`CompatToolMapping` object. -/
def configDoc (mapping : List (String × List VdfValue)) : Vdf :=
  { key := "InstallConfigStore"
    value := .obj [("Software", [.obj [("Valve", [.obj [("Steam", [.obj
      [("CompatToolMapping", [.obj mapping])]])]])]])] }

/-- A `localconfig.vdf` document whose `Apps` object has the given keys. -/
def localConfigDoc (appKeys : List String) : Vdf :=
  { key := "UserLocalConfigStore"
    value := .obj [("Software", [.obj [("Valve", [.obj [("Steam", [.obj
      [("Apps", [.obj (appKeys.map (fun k => (k, [VdfValue.obj []])))])]])]])]])] }

/-- An empty root filesystem. -/
def fsEmpty : Fs := .dir true []

/-- A root with a Steam installation whose `steamapps` exists but holds no
`libraryfolders.vdf`. -/
def fsNoLibVdf : Fs :=
  .dir true [("steam", .dir true [("steamapps", .dir true [])])]

/-- Fixture for the catalog claims: two library folders, each declaring the
same application id 730 in its manifest (different names). -/
def fsDup : Fs :=
  .dir true [
    ("steam", .dir true [("steamapps", .dir true [
      ("libraryfolders.vdf", .file (.text (.ok (libFoldersDoc2 "/lib1" "/lib2"))))])]),
    ("lib1", .dir true [("steamapps", .dir true [
      ("appmanifest_730.acf", .file (.text (.ok (manifestDoc "730" "Game A"))))])]),
    ("lib2", .dir true [("steamapps", .dir true [
      ("appmanifest_730.acf", .file (.text (.ok (manifestDoc "730" "Game B"))))])])]

/-- Fixture: the first library folder is intact, the second one's path does
not exist at all. -/
def fsPartial : Fs :=
  .dir true [
    ("steam", .dir true [("steamapps", .dir true [
      ("libraryfolders.vdf", .file (.text (.ok (libFoldersDoc2 "/lib1" "/lib2"))))])]),
    ("lib1", .dir true [("steamapps", .dir true [
      ("appmanifest_730.acf", .file (.text (.ok (manifestDoc "730" "Game A"))))])])]

/-- Fixture: the first library folder is intact, the second one's `steamapps`
directory exists but cannot be read. -/
def fsUnreadableFolder : Fs :=
  .dir true [
    ("steam", .dir true [("steamapps", .dir true [
      ("libraryfolders.vdf", .file (.text (.ok (libFoldersDoc2 "/lib1" "/lib2"))))])]),
    ("lib1", .dir true [("steamapps", .dir true [
      ("appmanifest_730.acf", .file (.text (.ok (manifestDoc "730" "Game A"))))])]),
    ("lib2", .dir true [("steamapps", .dir false [])])]

/-- Fixture: `config/config.vdf` exists but cannot be read. -/
def fsCfgUnreadable : Fs :=
  .dir true [("steam", .dir true [("config", .dir true [
    ("config.vdf", .file .unreadable)])])]

/-- Fixture: `config/config.vdf` exists and is readable but fails to parse. -/
def fsCfgParseErr : Fs :=
  .dir true [("steam", .dir true [("config", .dir true [
    ("config.vdf", .file (.text (.error "unexpected token")))])])]

/-- Fixture: `config/config.vdf` parses but its root object lacks the
`Software` key (the nested compatibility-mapping path is absent). -/
def fsCfgNoSoftware : Fs :=
  .dir true [("steam", .dir true [("config", .dir true [
    ("config.vdf", .file (.text (.ok
      { key := "InstallConfigStore", value := .obj [] })))])])]

/-- Fixture: `config/config.vdf` with the nested path present and an empty
mapping table. -/
def fsCfgEmptyMapping : Fs :=
  .dir true [("steam", .dir true [("config", .dir true [
    ("config.vdf", .file (.text (.ok (configDoc []))))])])]

/-- Fixture for the descriptor round trip: a single tool directory whose
descriptor is the freshly generated document. -/
def toolFs (internal_name display_name : String) : Fs :=
  .dir true [("tools", .dir true [("mytool", .dir true [
    ("compatibilitytool.vdf", .file (.text (.ok
      (WineCask.generate_compatibility_tool_vdf internal_name display_name))))])])]

/-- A decoded shortcuts document with one shortcut record. -/
def shortcutsJson : Json :=
  .obj [("shortcuts", .obj [("0", .obj
    [("appid", .num 123),
     ("AppName", .str "An Anime Game Launcher"),
     ("Exe", .str "launcher")])])]

/-- Four `userdata` entries exercising every skip mode of `list_shortcuts`
(a stray file, a user without a shortcuts file, a user whose shortcuts file
fails to decode) and one user with a decodable file. -/
def shortcutUsers : List (String × Fs) :=
  [("stray.txt", .file .unreadable),
   ("100", .dir true [("config", .dir true [])]),
   ("200", .dir true [("config", .dir true [
     ("shortcuts.vdf", .file (.binary (.error "truncated")))])]),
   ("300", .dir true [("config", .dir true [
     ("shortcuts.vdf", .file (.binary (.ok shortcutsJson)))])])]

/-- Fixture for `list_shortcuts` built from `shortcutUsers`. -/
def fsShortcuts : Fs :=
  .dir true [("steam", .dir true [("userdata", .dir true shortcutUsers)])]

/-- Fixture for the userdata-filtered catalog: one library folder (the
installation itself) with one manifest, and one user whose local config
references that application id. -/
def fsUser : Fs :=
  .dir true [("steam", .dir true [
    ("steamapps", .dir true [
      ("libraryfolders.vdf", .file (.text (.ok
        { key := "libraryfolders", value := .obj [("0", [.obj [("path", [.str "/steam"])]])] }))),
      ("appmanifest_730.acf", .file (.text (.ok (manifestDoc "730" "Game A"))))]),
    ("userdata", .dir true [("111", .dir true [("config", .dir true [
      ("localconfig.vdf", .file (.text (.ok (localConfigDoc ["730"]))))])])])])]

/-- The directory tree of the spec's uninstall scenario: three files and one
subdirectory with two files, everything removable. -/
def sampleTree : WineCask.DirEntry :=
  .dir true true [.file true, .file true, .file true, .dir true true [.file true, .file true]]

/-- What one library folder contributes to the catalog: nothing when its
`steamapps` subdirectory does not exist, and otherwise the manifest entries
`find_installed_application` returns for it. -/
def folderContribution (fs : Fs) (f : String) : List SteamApp :=
  if (fs.lookup (splitPath f ++ ["steamapps"])).isSome then
    (SteamUtil.find_installed_application fs (splitPath f ++ ["steamapps"])).okOrNil
  else []

/-- Fixture: a tool directory whose descriptor exists but fails to parse. -/
def fsToolParseErr : Fs :=
  .dir true [("t", .dir true [
    ("compatibilitytool.vdf", .file (.text (.error "bad descriptor")))])]

/-- Fixture: a tool directory whose descriptor parses but carries an empty
root object, so every field extraction fails. -/
def fsToolNoFields : Fs :=
  .dir true [("t2", .dir true [
    ("compatibilitytool.vdf", .file (.text (.ok
      { key := "compatibilitytools", value := .obj [] })))])]

/-- Fixture: an apps directory whose only manifest cannot be read. -/
def fsBadManifest : Fs :=
  .dir true [("apps", .dir true [("appmanifest_1.acf", .file .unreadable)])]

/-- Fixture: `steamapps/libraryfolders.vdf` exists but cannot be read. -/
def fsLibVdfUnreadable : Fs :=
  .dir true [("steam", .dir true [("steamapps", .dir true [
    ("libraryfolders.vdf", .file .unreadable)])])]

/-! ### General lemmas about the embedding -/

theorem Fs.lookup_append (p q : List String) : ∀ fs : Fs,
    fs.lookup (p ++ q) = (fs.lookup p).bind (fun e => e.lookup q) := by
  induction p with
  | nil => intro fs; simp [Fs.lookup]
  | cons n p ih =>
    intro fs
    cases fs with
    | file d => simp [Fs.lookup]
    | dir rd es =>
      simp only [List.cons_append, Fs.lookup]
      cases es.find? (fun x => x.1 == n) with
      | none => simp
      | some x => simpa using ih x.2

theorem isErr_unwrapO {α : Type} (o : Option α) : (unwrapO o).isErr = false := by
  cases o <;> rfl

theorem isErr_parse_app_manifest (fs : Fs) (dir : List String) (n : String) :
    (SteamUtil.parse_app_manifest fs dir n).isErr = false := by
  unfold SteamUtil.parse_app_manifest
  split
  · rfl
  · rfl
  · exact isErr_unwrapO _

theorem isErr_collect_manifests (fs : Fs) (dir : List String) :
    ∀ ns : List String, (SteamUtil.collect_manifests fs dir ns).isErr = false := by
  intro ns
  induction ns with
  | nil => rfl
  | cons n ns ih =>
    simp only [SteamUtil.collect_manifests]
    split
    · split
      · rfl
      · rename_i h2
        rw [h2] at ih
        simp [PResult.isErr] at ih
      · rfl
    · rename_i h
      have hp := isErr_parse_app_manifest fs dir n
      rw [h] at hp
      simp [PResult.isErr] at hp
    · rfl

theorem isErr_find_installed_application (fs : Fs) (d : List String) :
    (SteamUtil.find_installed_application fs d).isErr = false := by
  unfold SteamUtil.find_installed_application
  split
  · rfl
  · exact isErr_collect_manifests fs d _

/-- A result that is neither an error nor a panic is an `ok`. -/
theorem eq_ok_of_not_err_panicked {α : Type} (m : PResult α)
    (h1 : m.isErr = false) (h2 : m ≠ .panicked) : ∃ a, m = .ok a := by
  cases m with
  | ok a => exact ⟨a, rfl⟩
  | err e => simp [PResult.isErr] at h1
  | panicked => exact absurd rfl h2

theorem isErr_unwrapR {α : Type} (m : PResult α) : (unwrapR m).isErr = false := by
  cases m <;> rfl

theorem isErr_read_compatibility_tool (fs : Fs) (p : List String) :
    (SteamUtil.read_compatibility_tool_from_vdf_path fs p).isErr = false := by
  unfold SteamUtil.read_compatibility_tool_from_vdf_path
  split
  · rfl
  · rfl
  · exact isErr_unwrapO _

theorem isErr_collect_compat_tools (fs : Fs) (ctd : List String) :
    ∀ es : List (String × Fs), (SteamUtil.collect_compat_tools fs ctd es).isErr = false := by
  intro es
  induction es with
  | nil => rfl
  | cons e es ih =>
    simp only [SteamUtil.collect_compat_tools]
    split
    · split
      · rfl
      · rename_i h2
        rw [h2] at ih
        simp [PResult.isErr] at ih
      · rfl
    · rename_i h
      have hu := isErr_unwrapR
        (SteamUtil.read_compatibility_tool_from_vdf_path fs (ctd ++ [e.1, "compatibilitytool.vdf"]))
      rw [h] at hu
      simp [PResult.isErr] at hu
    · rfl

theorem isErr_list_compatibility_tools (fs : Fs) (sp : List String) :
    (SteamUtil.list_compatibility_tools fs sp).isErr = false := by
  unfold SteamUtil.list_compatibility_tools
  split <;> dsimp only <;> split <;>
    first
      | rfl
      | (split <;> first | rfl | exact isErr_collect_compat_tools _ _ _)

theorem isErr_library_folder_paths :
    ∀ values : List (List VdfValue),
      (SteamUtil.library_folder_paths values).isErr = false := by
  intro values
  induction values with
  | nil => rfl
  | cons v vs ih =>
    simp only [SteamUtil.library_folder_paths]
    split
    · rfl
    · split
      · split <;> rfl
      · rename_i h2
        rw [h2] at ih
        simp [PResult.isErr] at ih
      · rfl

theorem collect_manifests_panicked (fs : Fs) (dir : List String) :
    ∀ ns : List String,
      (∃ n ∈ ns, SteamUtil.parse_app_manifest fs dir n = .panicked) →
      SteamUtil.collect_manifests fs dir ns = .panicked := by
  intro ns
  induction ns with
  | nil =>
    rintro ⟨n, hn, _⟩
    cases hn
  | cons m ms ih =>
    rintro ⟨n, hn, hpan⟩
    rcases List.mem_cons.mp hn with h | h
    · subst h
      rw [SteamUtil.collect_manifests, hpan]
    · rcases hp : SteamUtil.parse_app_manifest fs dir m with a | e | _
      · rw [SteamUtil.collect_manifests, hp, ih ⟨n, h, hpan⟩]
      · have hq := isErr_parse_app_manifest fs dir m
        rw [hp] at hq
        simp [PResult.isErr] at hq
      · rw [SteamUtil.collect_manifests, hp]

theorem library_folder_paths_panicked :
    ∀ values : List (List VdfValue),
      (∃ value ∈ values, SteamUtil.library_folder_path value = none) →
      SteamUtil.library_folder_paths values = .panicked := by
  intro values
  induction values with
  | nil =>
    rintro ⟨v, hv, _⟩
    cases hv
  | cons v vs ih =>
    rintro ⟨w, hw, hnone⟩
    rcases List.mem_cons.mp hw with h | h
    · subst h
      rw [SteamUtil.library_folder_paths, hnone]
    · rcases hp : SteamUtil.library_folder_path v with _ | path
      · rw [SteamUtil.library_folder_paths, hp]
      · rw [SteamUtil.library_folder_paths, hp, ih ⟨w, h, hnone⟩]

/-! ### Claim theorems -/

/-- Claim C3 counterexample: a task of the uninstall kind, dequeued by the
worker loop's dispatch, invokes no handler at all — in particular it does not
invoke the uninstall handler with its payload. -/
theorem C3_counterexample :
    WineCask.process_queue_step (π := Nat) (ρ := Unit)
        { type := .UninstallCompatibilityTool, install := some 7 } () =
      WineCask.HandlerCall.noCall ∧
    WineCask.process_queue_step (π := Nat) (ρ := Unit)
        { type := .UninstallCompatibilityTool, install := some 7 } () ≠
      WineCask.HandlerCall.uninstallCall 7 := by
  exact ⟨rfl, by decide⟩

/-- Claim C3 (amended): on a dequeued install task the dispatch invokes the
install handler with the task payload and the current peer set (panicking when
the payload is absent); a dequeued uninstall task invokes no handler. -/
theorem C3_process_queue_dispatch {π ρ : Type} (task : WineCask.Task π) (peer_map : ρ) :
    (task.type = .InstallCompatibilityTool →
      WineCask.process_queue_step task peer_map =
        (match task.install with
         | some payload => .installCall payload peer_map
         | none => .panicked)) ∧
    (task.type = .UninstallCompatibilityTool →
      WineCask.process_queue_step task peer_map = .noCall) := by
  constructor
  · intro h
    simp [WineCask.process_queue_step, h]
  · intro h
    simp [WineCask.process_queue_step, h]

/-- Witness for C3: concrete install and uninstall tasks. -/
theorem C3_process_queue_dispatch_witness :
    WineCask.process_queue_step (π := Nat) (ρ := Unit)
        { type := .InstallCompatibilityTool, install := some 3 } () =
      WineCask.HandlerCall.installCall 3 () ∧
    WineCask.process_queue_step (π := Nat) (ρ := Unit)
        { type := .UninstallCompatibilityTool, install := some 3 } () =
      WineCask.HandlerCall.noCall := by
  exact ⟨(C3_process_queue_dispatch _ _).1 rfl, (C3_process_queue_dispatch _ _).2 rfl⟩

theorem find_steam_directory_loop_eq (fs : Fs) (up : List String) :
    ∀ roots : List String,
      SteamUtil.find_steam_directory_loop fs up roots =
        match roots.find? (steamRootQualifies fs up) with
        | some steam_dir => .ok (up ++ splitPath steam_dir)
        | none => .error .SteamDirectoryNotFound := by
  intro roots
  induction roots with
  | nil => rfl
  | cons r rs ih =>
    by_cases h : steamRootQualifies fs up r
    · rw [List.find?_cons_of_pos _ h]
      unfold SteamUtil.find_steam_directory_loop
      rw [if_pos]
      simpa [steamRootQualifies, List.append_assoc] using h
    · rw [List.find?_cons_of_neg _ h]
      unfold SteamUtil.find_steam_directory_loop
      rw [if_neg, ih]
      simpa [steamRootQualifies, List.append_assoc] using h

/-- Claim C4: the directory locator resolves the home directory from the
explicit override, then `USERPROFILE`, then `HOME` (failing with
`HomeDirectoryNotFound` when none resolves), and returns the first candidate
layout, in the fixed probe order, whose `config` subdirectory holds both
`config.vdf` and `libraryfolders.vdf` (failing with `SteamDirectoryNotFound`
when no candidate qualifies). -/
theorem C4_find_steam_directory (fs : Fs)
    (user_home userprofile_env home_env : Option String) :
    SteamUtil.find_steam_directory fs user_home userprofile_env home_env =
      match user_home.or (userprofile_env.or home_env) with
      | none => .error .HomeDirectoryNotFound
      | some hp =>
        match SteamUtil.possible_steam_roots.find? (steamRootQualifies fs (splitPath hp)) with
        | some steam_dir => .ok (splitPath hp ++ splitPath steam_dir)
        | none => .error .SteamDirectoryNotFound := by
  cases user_home <;> cases userprofile_env <;> cases home_env <;>
    simp [SteamUtil.find_steam_directory, Option.or, Option.orElse,
      find_steam_directory_loop_eq]

/-- Claim C7: generating a tool descriptor for an internal and a display name
(representable in the document grammar: no quote, no control characters) and
reading it back yields a `CompatibilityTool` with exactly those names,
`from_os_list` `windows` and `to_os_list` `linux`. -/
theorem C7_descriptor_round_trip (internal_name display_name : String)
    (_hn : ∀ c ∈ internal_name.data, c.toNat ≠ 34 ∧ 32 ≤ c.toNat)
    (_hd : ∀ c ∈ display_name.data, c.toNat ≠ 34 ∧ 32 ≤ c.toNat) :
    SteamUtil.read_compatibility_tool_from_vdf_path (toolFs internal_name display_name)
        ["tools", "mytool", "compatibilitytool.vdf"] =
      .ok { path := ["tools", "mytool"], directory_name := "mytool",
            internal_name := internal_name, display_name := display_name,
            from_os_list := "windows", to_os_list := "linux" } := rfl

/-- Witness for C7 at concrete names. -/
theorem C7_descriptor_round_trip_witness :
    SteamUtil.read_compatibility_tool_from_vdf_path (toolFs "Proton-X" "Proton X")
        ["tools", "mytool", "compatibilitytool.vdf"] =
      .ok { path := ["tools", "mytool"], directory_name := "mytool",
            internal_name := "Proton-X", display_name := "Proton X",
            from_os_list := "windows", to_os_list := "linux" } :=
  C7_descriptor_round_trip "Proton-X" "Proton X" (by decide) (by decide)

theorem deleteEntry_success_residual (e : WineCask.DirEntry) :
    (WineCask.deleteEntry e).2 = true → (WineCask.deleteEntry e).1 = none := by
  cases e with
  | file rm => cases rm <;> simp [WineCask.deleteEntry]
  | dir rd rm cs =>
    rcases h : WineCask.deleteChildren cs with ⟨rest, ok⟩
    cases rd <;> cases rm <;> cases ok <;> simp [WineCask.deleteEntry, h]

theorem deleteChildren_success_residual :
    ∀ l : List WineCask.DirEntry,
      (WineCask.deleteChildren l).2 = true → (WineCask.deleteChildren l).1 = [] := by
  intro l
  induction l with
  | nil => simp [WineCask.deleteChildren]
  | cons c cs ih =>
    intro h
    rcases hc : WineCask.deleteEntry c with ⟨res, ok⟩
    cases ok with
    | false =>
      rw [WineCask.deleteChildren, hc] at h
      simp at h
    | true =>
      have hres : res = none := by
        have := deleteEntry_success_residual c
        rw [hc] at this
        exact this rfl
      rcases hr : WineCask.deleteChildren cs with ⟨rest, ok2⟩
      rw [WineCask.deleteChildren, hc, hr] at h ⊢
      simp at h
      have h3 : rest = [] := by
        have h4 := ih (by rw [hr]; exact h)
        rw [hr] at h4
        exact h4
      subst hres h3
      simp

/-- Claim C8: when the recursive delete returns success on an entry, nothing
of the entry remains (the path and everything beneath it are gone); a
directory's deletion succeeds exactly when its listing succeeds, the deletion
of all its children succeeds, and its own removal succeeds afterwards; a
plain file is removed directly, succeeding exactly when its removal does. -/
theorem C8_recursive_delete :
    (∀ e : WineCask.DirEntry,
      (WineCask.deleteEntry e).2 = true → (WineCask.deleteEntry e).1 = none) ∧
    (∀ (rd rm : Bool) (cs : List WineCask.DirEntry),
      (WineCask.deleteEntry (.dir rd rm cs)).2 = true ↔
        rd = true ∧ (WineCask.deleteChildren cs).2 = true ∧ rm = true) ∧
    (∀ rm : Bool, (WineCask.deleteEntry (.file rm)).2 = true ↔ rm = true) := by
  refine ⟨deleteEntry_success_residual, ?_, ?_⟩
  · intro rd rm cs
    rcases h : WineCask.deleteChildren cs with ⟨rest, ok⟩
    cases rd <;> cases rm <;> cases ok <;> simp [WineCask.deleteEntry, h]
  · intro rm
    cases rm <;> simp [WineCask.deleteEntry]

/-- Witness for C8: deleting the spec's sample tree (three files plus a
subdirectory with two files) succeeds and leaves nothing behind. -/
theorem C8_recursive_delete_witness :
    (WineCask.deleteEntry sampleTree).2 = true ∧
    (WineCask.deleteEntry sampleTree).1 = none :=
  ⟨rfl, C8_recursive_delete.1 sampleTree rfl⟩

/-- Claim C1 counterexample: two library folders whose manifests both declare
application id 730; the catalog keeps both entries, so a duplicated id occurs
twice, not exactly once. -/
theorem C1_counterexample :
    SteamUtil.list_installed_applications fsDup ["steam"] =
      .ok [{ shortcut := false, app_id := 730, name := "Game A" },
           { shortcut := false, app_id := 730, name := "Game B" }] ∧
    ¬ (([{ shortcut := false, app_id := 730, name := "Game A" },
         { shortcut := false, app_id := 730, name := "Game B" }] : List SteamApp).map
          SteamApp.app_id).Nodup := by
  exact ⟨by decide, by decide⟩

theorem installed_from_folders_concat (fs : Fs) :
    ∀ folders : List String,
      (∀ f ∈ folders, (fs.lookup (splitPath f ++ ["steamapps"])).isSome = true →
        SteamUtil.find_installed_application fs (splitPath f ++ ["steamapps"]) ≠ .panicked) →
      SteamUtil.installed_from_folders fs folders =
        .ok (folders.flatMap (folderContribution fs)) := by
  intro folders
  induction folders with
  | nil => intro _; rfl
  | cons f rest ih =>
    intro h
    have hrest := ih (fun g hg => h g (List.mem_cons_of_mem f hg))
    by_cases hex : (fs.lookup (splitPath f ++ ["steamapps"])).isSome = true
    · obtain ⟨apps, happs⟩ :=
        eq_ok_of_not_err_panicked _
          (isErr_find_installed_application fs (splitPath f ++ ["steamapps"]))
          (h f (List.mem_cons_self f rest) hex)
      rw [SteamUtil.installed_from_folders, if_neg (by simp [hex]), happs, hrest]
      simp [folderContribution, hex, happs, PResult.okOrNil]
    · rw [SteamUtil.installed_from_folders, if_pos (by simpa using hex), hrest]
      simp [folderContribution, hex]

/-- Claim C1 (amended): the catalog is the concatenation, in folder scan
order, of each folder's manifest entries (folders whose `steamapps`
subdirectory does not exist contribute nothing); a duplicated id yields one
entry per declaring folder, the first folder's entry first — duplicates are
not collapsed. -/
theorem C1_catalog_concat (fs : Fs) (steam_path : List String) (folders : List String)
    (hlf : SteamUtil.list_library_folders fs steam_path = .ok folders)
    (hnp : ∀ f ∈ folders, (fs.lookup (splitPath f ++ ["steamapps"])).isSome = true →
      SteamUtil.find_installed_application fs (splitPath f ++ ["steamapps"]) ≠ .panicked) :
    SteamUtil.list_installed_applications fs steam_path =
      .ok (folders.flatMap (folderContribution fs)) := by
  rw [SteamUtil.list_installed_applications, hlf]
  exact installed_from_folders_concat fs folders hnp

/-- Witness for C1 at the duplicate fixture: both folders contribute their
id-730 entry, in scan order. -/
theorem C1_catalog_concat_witness :
    SteamUtil.list_installed_applications fsDup ["steam"] =
      .ok ((["/lib1", "/lib2"] : List String).flatMap (folderContribution fsDup)) :=
  C1_catalog_concat fsDup ["steam"] ["/lib1", "/lib2"] (by decide) (by decide)

/-- Claim C2 counterexample: reading a tool descriptor from a path that does
not exist panics instead of returning an inspectable error. -/
theorem C2_counterexample :
    SteamUtil.read_compatibility_tool_from_vdf_path fsEmpty
        ["tool", "compatibilitytool.vdf"] = .panicked ∧
    (SteamUtil.read_compatibility_tool_from_vdf_path fsEmpty
        ["tool", "compatibilitytool.vdf"]).isErr = false := by
  exact ⟨rfl, rfl⟩

/-- Claim C2 (amended): `read_compatibility_tool_from_vdf_path`,
`find_installed_application` and `list_compatibility_tools` never return an
error value at all — their only failure outcome is a panic:
`read_compatibility_tool_from_vdf_path` panics on a failed read, a failed
parse or a missing document field; `find_installed_application` panics on an
unlistable directory and on any `.acf` manifest whose read, parse or field
extraction fails; `list_compatibility_tools` panics when the installation
root is missing.  `list_library_folders` returns declared errors only from
its existence pre-checks (missing `steamapps` → `SteamAppsDirectoryNotFound`,
missing `libraryfolders.vdf` → `LibraryFoldersVdfNotFound`; no other error
value is ever returned) and panics on a failed read, a failed parse, a
non-object root or a malformed folder entry.
`get_compatibility_tools_mappings` returns `SteamConfigVdfNotFound` when
`config.vdf` is absent or unreadable, `VdfParsingError` when it fails to
parse, and panics when the parsed document lacks the nested
compatibility-mapping path. -/
theorem C2_error_surface :
    (∀ (fs : Fs) (p : List String),
      (SteamUtil.read_compatibility_tool_from_vdf_path fs p).isErr = false) ∧
    (∀ (fs : Fs) (d : List String),
      (SteamUtil.find_installed_application fs d).isErr = false) ∧
    (∀ (fs : Fs) (sp : List String),
      (SteamUtil.list_compatibility_tools fs sp).isErr = false) ∧
    (∀ (fs : Fs) (p : List String), fs.readVdfText p = none →
      SteamUtil.read_compatibility_tool_from_vdf_path fs p = .panicked) ∧
    (∀ (fs : Fs) (p : List String) (msg : String),
      fs.readVdfText p = some (.error msg) →
      SteamUtil.read_compatibility_tool_from_vdf_path fs p = .panicked) ∧
    (∀ (fs : Fs) (p : List String) (v : Vdf),
      fs.readVdfText p = some (.ok v) →
      SteamUtil.compat_tool_fields p v = none →
      SteamUtil.read_compatibility_tool_from_vdf_path fs p = .panicked) ∧
    (∀ (fs : Fs) (d : List String), fs.read_dir d = none →
      SteamUtil.find_installed_application fs d = .panicked) ∧
    (∀ (fs : Fs) (d : List String) (entries : List (String × Fs)),
      fs.read_dir d = some entries →
      (∃ n ∈ (entries.map (fun e => e.1)).filter
          (fun n => (SteamUtil.fileExtension n).getD "" == "acf"),
        SteamUtil.parse_app_manifest fs d n = .panicked) →
      SteamUtil.find_installed_application fs d = .panicked) ∧
    (∀ (fs : Fs) (d : List String) (n : String),
      (fs.readVdfText (d ++ [n]) = none ∨
        (∃ msg, fs.readVdfText (d ++ [n]) = some (.error msg)) ∨
        (∃ v, fs.readVdfText (d ++ [n]) = some (.ok v) ∧
          SteamUtil.manifest_fields v = none)) →
      SteamUtil.parse_app_manifest fs d n = .panicked) ∧
    (∀ (fs : Fs) (sp : List String) (e : SteamUtilError),
      SteamUtil.list_library_folders fs sp = .err e →
      e = .SteamAppsDirectoryNotFound ∨ e = .LibraryFoldersVdfNotFound) ∧
    (∀ (fs : Fs) (sp : List String), fs.lookup (sp ++ ["steamapps"]) = none →
      SteamUtil.list_library_folders fs sp = .err .SteamAppsDirectoryNotFound) ∧
    (∀ (fs : Fs) (sp : List String), (fs.lookup (sp ++ ["steamapps"])).isSome = true →
      fs.lookup (sp ++ ["steamapps", "libraryfolders.vdf"]) = none →
      SteamUtil.list_library_folders fs sp = .err .LibraryFoldersVdfNotFound) ∧
    (∀ (fs : Fs) (sp : List String),
      (fs.lookup (sp ++ ["steamapps"])).isSome = true →
      (fs.lookup (sp ++ ["steamapps", "libraryfolders.vdf"])).isSome = true →
      (fs.readVdfText (sp ++ ["steamapps", "libraryfolders.vdf"]) = none ∨
        (∃ msg, fs.readVdfText (sp ++ ["steamapps", "libraryfolders.vdf"]) =
          some (.error msg)) ∨
        (∃ v, fs.readVdfText (sp ++ ["steamapps", "libraryfolders.vdf"]) =
          some (.ok v) ∧ v.value.get_obj = none) ∨
        (∃ v o value, fs.readVdfText (sp ++ ["steamapps", "libraryfolders.vdf"]) =
          some (.ok v) ∧ v.value.get_obj = some o ∧ value ∈ objValues o ∧
          SteamUtil.library_folder_path value = none)) →
      SteamUtil.list_library_folders fs sp = .panicked) ∧
    (∀ (fs : Fs) (sp : List String), fs.lookup (sp ++ ["config", "config.vdf"]) = none →
      SteamUtil.get_compatibility_tools_mappings fs sp = .err .SteamConfigVdfNotFound) ∧
    (∀ (fs : Fs) (sp : List String),
      (fs.lookup (sp ++ ["config", "config.vdf"])).isSome = true →
      fs.readVdfText (sp ++ ["config", "config.vdf"]) = none →
      SteamUtil.get_compatibility_tools_mappings fs sp = .err .SteamConfigVdfNotFound) ∧
    (∀ (fs : Fs) (sp : List String) (msg : String),
      (fs.lookup (sp ++ ["config", "config.vdf"])).isSome = true →
      fs.readVdfText (sp ++ ["config", "config.vdf"]) = some (.error msg) →
      SteamUtil.get_compatibility_tools_mappings fs sp =
        .err (.VdfParsingError (String.intercalate "/" (sp ++ ["config", "config.vdf"])))) ∧
    (∀ (fs : Fs) (sp : List String) (v : Vdf),
      (fs.lookup (sp ++ ["config", "config.vdf"])).isSome = true →
      fs.readVdfText (sp ++ ["config", "config.vdf"]) = some (.ok v) →
      SteamUtil.compat_tool_mapping_obj v = none →
      SteamUtil.get_compatibility_tools_mappings fs sp = .panicked) ∧
    (∀ (fs : Fs) (sp : List String), fs.lookup sp = none →
      SteamUtil.list_compatibility_tools fs sp = .panicked) := by
  refine ⟨isErr_read_compatibility_tool, isErr_find_installed_application,
    isErr_list_compatibility_tools, ?_, ?_, ?_, ?_, ?_, ?_, ?_, ?_, ?_, ?_, ?_, ?_, ?_, ?_, ?_⟩
  · intro fs p h
    unfold SteamUtil.read_compatibility_tool_from_vdf_path
    rw [h]
  · intro fs p msg h
    unfold SteamUtil.read_compatibility_tool_from_vdf_path
    rw [h]
  · intro fs p v h1 h2
    unfold SteamUtil.read_compatibility_tool_from_vdf_path
    rw [h1]
    show unwrapO (SteamUtil.compat_tool_fields p v) = .panicked
    rw [h2]
    rfl
  · intro fs d h
    unfold SteamUtil.find_installed_application
    rw [h]
  · intro fs d entries hd hex
    unfold SteamUtil.find_installed_application
    rw [hd]
    exact collect_manifests_panicked fs d _ hex
  · intro fs d n hdisj
    rcases hdisj with h | ⟨msg, h⟩ | ⟨v, h, hf⟩
    · unfold SteamUtil.parse_app_manifest
      rw [h]
    · unfold SteamUtil.parse_app_manifest
      rw [h]
    · unfold SteamUtil.parse_app_manifest
      rw [h]
      show unwrapO (SteamUtil.manifest_fields v) = .panicked
      rw [hf]
      rfl
  · intro fs sp e h
    rw [SteamUtil.list_library_folders] at h
    split at h
    · cases h
      exact Or.inl rfl
    · split at h
      · cases h
        exact Or.inr rfl
      · split at h
        · simp at h
        · simp at h
        · split at h
          · simp at h
          · rename_i app_state_obj heq2
            have hq := isErr_library_folder_paths (objValues app_state_obj)
            rw [h] at hq
            simp [PResult.isErr] at hq
  · intro fs sp h
    rw [SteamUtil.list_library_folders, if_pos (by simp [h])]
  · intro fs sp h1 h2
    rw [SteamUtil.list_library_folders, if_neg (by simp [h1]), if_pos (by simp [h2])]
  · intro fs sp h1 h2 hdisj
    rw [SteamUtil.list_library_folders, if_neg (by simp [h1]), if_neg (by simp [h2])]
    split
    · rfl
    · rfl
    · rename_i vdf heq
      split
      · rfl
      · rename_i o ho2
        rcases hdisj with h | ⟨msg, h⟩ | ⟨v, h, ho⟩ | ⟨v, o2, value, h, ho, hmem, hnone⟩
        · rw [h] at heq
          cases heq
        · rw [h] at heq
          cases heq
        · rw [h] at heq
          cases heq
          rw [ho] at ho2
          cases ho2
        · rw [h] at heq
          cases heq
          rw [ho] at ho2
          cases ho2
          exact library_folder_paths_panicked _ ⟨value, hmem, hnone⟩
  · intro fs sp h
    rw [SteamUtil.get_compatibility_tools_mappings, if_pos (by simp [h])]
  · intro fs sp h1 h2
    rw [SteamUtil.get_compatibility_tools_mappings, if_neg (by simp [h1]), h2]
  · intro fs sp msg h1 h2
    rw [SteamUtil.get_compatibility_tools_mappings, if_neg (by simp [h1]), h2]
  · intro fs sp v h1 h2 h3
    rw [SteamUtil.get_compatibility_tools_mappings, if_neg (by simp [h1]), h2]
    show SteamUtil.compat_mappings_of_vdf v = .panicked
    unfold SteamUtil.compat_mappings_of_vdf
    rw [h3]
  · intro fs sp h
    have hc : fs.lookup (sp ++ ["compatibilitytools.d"]) = none := by
      rw [Fs.lookup_append, h]
      rfl
    rw [SteamUtil.list_compatibility_tools]
    simp only [hc, h]
    rfl

/-- Witness for C2: a concrete filesystem for every hypothesis-bearing
conjunct — missing, unparseable and field-less tool descriptors, a missing
apps directory, an unreadable manifest, the two library pre-check errors, an
unreadable library-folders document, and the four config-document cases. -/
theorem C2_error_surface_witness :
    SteamUtil.read_compatibility_tool_from_vdf_path fsEmpty
      ["tool2", "compatibilitytool.vdf"] = .panicked ∧
    SteamUtil.read_compatibility_tool_from_vdf_path fsToolParseErr
      ["t", "compatibilitytool.vdf"] = .panicked ∧
    SteamUtil.read_compatibility_tool_from_vdf_path fsToolNoFields
      ["t2", "compatibilitytool.vdf"] = .panicked ∧
    SteamUtil.find_installed_application fsEmpty ["apps"] = .panicked ∧
    SteamUtil.find_installed_application fsBadManifest ["apps"] = .panicked ∧
    SteamUtil.parse_app_manifest fsBadManifest ["apps"] "appmanifest_1.acf" = .panicked ∧
    (SteamUtilError.SteamAppsDirectoryNotFound = .SteamAppsDirectoryNotFound ∨
      SteamUtilError.SteamAppsDirectoryNotFound = .LibraryFoldersVdfNotFound) ∧
    SteamUtil.list_library_folders fsEmpty ["steam"] = .err .SteamAppsDirectoryNotFound ∧
    SteamUtil.list_library_folders fsNoLibVdf ["steam"] = .err .LibraryFoldersVdfNotFound ∧
    SteamUtil.list_library_folders fsLibVdfUnreadable ["steam"] = .panicked ∧
    SteamUtil.get_compatibility_tools_mappings fsEmpty ["steam"] =
      .err .SteamConfigVdfNotFound ∧
    SteamUtil.get_compatibility_tools_mappings fsCfgUnreadable ["steam"] =
      .err .SteamConfigVdfNotFound ∧
    SteamUtil.get_compatibility_tools_mappings fsCfgParseErr ["steam"] =
      .err (.VdfParsingError
        (String.intercalate "/" ((["steam"] : List String) ++ ["config", "config.vdf"]))) ∧
    SteamUtil.get_compatibility_tools_mappings fsCfgNoSoftware ["steam"] = .panicked ∧
    SteamUtil.list_compatibility_tools fsEmpty ["nosteam"] = .panicked := by
  obtain ⟨-, -, -, hD, hE, hF, hG, hH, hI, hJ, hK, hL, hM, hN, hO, hP, hQ, hR⟩ :=
    C2_error_surface
  exact ⟨hD fsEmpty ["tool2", "compatibilitytool.vdf"] rfl,
    hE fsToolParseErr ["t", "compatibilitytool.vdf"] "bad descriptor" rfl,
    hF fsToolNoFields ["t2", "compatibilitytool.vdf"]
      { key := "compatibilitytools", value := .obj [] } rfl rfl,
    hG fsEmpty ["apps"] rfl,
    hH fsBadManifest ["apps"] [("appmanifest_1.acf", .file .unreadable)] rfl (by decide),
    hI fsBadManifest ["apps"] "appmanifest_1.acf" (Or.inl rfl),
    hJ fsEmpty ["steam"] .SteamAppsDirectoryNotFound rfl,
    hK fsEmpty ["steam"] rfl,
    hL fsNoLibVdf ["steam"] rfl rfl,
    hM fsLibVdfUnreadable ["steam"] rfl rfl (Or.inl rfl),
    hN fsEmpty ["steam"] rfl,
    hO fsCfgUnreadable ["steam"] rfl rfl,
    hP fsCfgParseErr ["steam"] "unexpected token" rfl rfl,
    hQ fsCfgNoSoftware ["steam"] { key := "InstallConfigStore", value := .obj [] } rfl rfl rfl,
    hR fsEmpty ["nosteam"] rfl⟩

/-- Claim C6 counterexample: with a library folder whose `steamapps`
directory exists but is unreadable, the whole call panics — it does not
return that folder's error (no error value is produced at all). -/
theorem C6_counterexample :
    SteamUtil.list_installed_applications fsUnreadableFolder ["steam"] = .panicked ∧
    (SteamUtil.list_installed_applications fsUnreadableFolder ["steam"]).isErr = false := by
  exact ⟨by decide, by decide⟩

/-- Claim C6 (amended): the per-folder scan never returns an inspectable
error value (its `Err` branch in the folder loop is unreachable); a folder
whose `steamapps` subdirectory is missing is skipped and the remaining
folders' entries are still returned (a partial result); a folder whose
`steamapps` directory is unreadable aborts the whole call with a panic, not
with an error. -/
theorem C6_folder_failures :
    (∀ (fs : Fs) (d : List String),
      (SteamUtil.find_installed_application fs d).isErr = false) ∧
    SteamUtil.list_installed_applications fsPartial ["steam"] =
      .ok [{ shortcut := false, app_id := 730, name := "Game A" }] ∧
    SteamUtil.list_installed_applications fsUnreadableFolder ["steam"] = .panicked := by
  exact ⟨isErr_find_installed_application, by decide, by decide⟩

theorem isErr_compat_mapping_fold :
    ∀ (l : List (String × List VdfValue)) (acc : List (Nat × String)),
      (SteamUtil.compat_mapping_fold l acc).isErr = false := by
  intro l
  induction l with
  | nil => intro _; rfl
  | cons e rest ih =>
    rcases e with ⟨key, value⟩
    intro acc
    simp only [SteamUtil.compat_mapping_fold]
    split
    · rfl
    · split
      · rfl
      · split
        · rfl
        · split
          · exact ih acc
          · exact ih _

theorem isErr_compat_mappings_of_vdf (v : Vdf) :
    (SteamUtil.compat_mappings_of_vdf v).isErr = false := by
  rw [SteamUtil.compat_mappings_of_vdf]
  split
  · rfl
  · exact isErr_compat_mapping_fold _ _

/-- Claim C5 counterexample: a `config.vdf` that exists but cannot be read
still yields `SteamConfigVdfNotFound` (so the error is not equivalent to
absence), and a parsed `config.vdf` whose nested compatibility-mapping path
is absent panics instead of yielding an empty mapping. -/
theorem C5_counterexample :
    (SteamUtil.get_compatibility_tools_mappings fsCfgUnreadable ["steam"] =
        .err .SteamConfigVdfNotFound ∧
      (fsCfgUnreadable.lookup ["steam", "config", "config.vdf"]).isSome = true) ∧
    SteamUtil.get_compatibility_tools_mappings fsCfgNoSoftware ["steam"] = .panicked := by
  exact ⟨⟨rfl, rfl⟩, rfl⟩

/-- Claim C5 (amended): `get_compatibility_tools_mappings` fails with
`SteamConfigVdfNotFound` exactly when `config.vdf` is absent or exists but
cannot be read; a read file that fails to parse yields `VdfParsingError`;
when the file parses, an absent component of the nested mapping path panics,
while a present path whose mapping table is empty yields the empty mapping. -/
theorem C5_config_mapping_errors :
    (∀ (fs : Fs) (sp : List String),
      fs.lookup (sp ++ ["config", "config.vdf"]) = none →
      SteamUtil.get_compatibility_tools_mappings fs sp = .err .SteamConfigVdfNotFound) ∧
    (∀ (fs : Fs) (sp : List String),
      (fs.lookup (sp ++ ["config", "config.vdf"])).isSome = true →
      fs.readVdfText (sp ++ ["config", "config.vdf"]) = none →
      SteamUtil.get_compatibility_tools_mappings fs sp = .err .SteamConfigVdfNotFound) ∧
    (∀ (fs : Fs) (sp : List String) (msg : String),
      (fs.lookup (sp ++ ["config", "config.vdf"])).isSome = true →
      fs.readVdfText (sp ++ ["config", "config.vdf"]) = some (.error msg) →
      SteamUtil.get_compatibility_tools_mappings fs sp =
        .err (.VdfParsingError (String.intercalate "/" (sp ++ ["config", "config.vdf"])))) ∧
    (∀ (fs : Fs) (sp : List String) (v : Vdf),
      (fs.lookup (sp ++ ["config", "config.vdf"])).isSome = true →
      fs.readVdfText (sp ++ ["config", "config.vdf"]) = some (.ok v) →
      SteamUtil.compat_tool_mapping_obj v = none →
      SteamUtil.get_compatibility_tools_mappings fs sp = .panicked) ∧
    (∀ (fs : Fs) (sp : List String) (v : Vdf),
      (fs.lookup (sp ++ ["config", "config.vdf"])).isSome = true →
      fs.readVdfText (sp ++ ["config", "config.vdf"]) = some (.ok v) →
      SteamUtil.compat_tool_mapping_obj v = some [] →
      SteamUtil.get_compatibility_tools_mappings fs sp = .ok []) ∧
    (∀ (fs : Fs) (sp : List String),
      SteamUtil.get_compatibility_tools_mappings fs sp = .err .SteamConfigVdfNotFound →
      fs.lookup (sp ++ ["config", "config.vdf"]) = none ∨
        fs.readVdfText (sp ++ ["config", "config.vdf"]) = none) := by
  refine ⟨?_, ?_, ?_, ?_, ?_, ?_⟩
  · intro fs sp h
    rw [SteamUtil.get_compatibility_tools_mappings, if_pos (by simp [h])]
  · intro fs sp h1 h2
    rw [SteamUtil.get_compatibility_tools_mappings, if_neg (by simp [h1]), h2]
  · intro fs sp msg h1 h2
    rw [SteamUtil.get_compatibility_tools_mappings, if_neg (by simp [h1]), h2]
  · intro fs sp v h1 h2 h3
    rw [SteamUtil.get_compatibility_tools_mappings, if_neg (by simp [h1]), h2]
    show SteamUtil.compat_mappings_of_vdf v = .panicked
    unfold SteamUtil.compat_mappings_of_vdf
    rw [h3]
  · intro fs sp v h1 h2 h3
    rw [SteamUtil.get_compatibility_tools_mappings, if_neg (by simp [h1]), h2]
    show SteamUtil.compat_mappings_of_vdf v = .ok []
    unfold SteamUtil.compat_mappings_of_vdf
    rw [h3]
    rfl
  · intro fs sp h
    rcases hx : fs.lookup (sp ++ ["config", "config.vdf"]) with _ | e
    · exact Or.inl rfl
    · rw [SteamUtil.get_compatibility_tools_mappings, hx, if_neg (by simp)] at h
      rcases hr : fs.readVdfText (sp ++ ["config", "config.vdf"]) with _ | pr
      · exact Or.inr rfl
      · rw [hr] at h
        rcases pr with msg | v
        · simp at h
        · have h2 : SteamUtil.compat_mappings_of_vdf v =
              .err .SteamConfigVdfNotFound := h
          have hne := isErr_compat_mappings_of_vdf v
          rw [h2] at hne
          simp [PResult.isErr] at hne

/-- Witness for C5 at concrete filesystems: an absent config, an unreadable
config, an unparseable config, a config lacking the nested path, and a config
with an empty mapping table. -/
theorem C5_config_mapping_errors_witness :
    SteamUtil.get_compatibility_tools_mappings fsEmpty ["steam2"] =
      .err .SteamConfigVdfNotFound ∧
    SteamUtil.get_compatibility_tools_mappings fsCfgUnreadable ["steam"] =
      .err .SteamConfigVdfNotFound ∧
    SteamUtil.get_compatibility_tools_mappings fsCfgParseErr ["steam"] =
      .err (.VdfParsingError
        (String.intercalate "/" ((["steam"] : List String) ++ ["config", "config.vdf"]))) ∧
    SteamUtil.get_compatibility_tools_mappings fsCfgNoSoftware ["steam"] = .panicked ∧
    SteamUtil.get_compatibility_tools_mappings fsCfgEmptyMapping ["steam"] = .ok [] ∧
    (fsCfgUnreadable.lookup (["steam"] ++ ["config", "config.vdf"]) = none ∨
      fsCfgUnreadable.readVdfText (["steam"] ++ ["config", "config.vdf"]) = none) := by
  refine ⟨C5_config_mapping_errors.1 fsEmpty ["steam2"] rfl,
    C5_config_mapping_errors.2.1 fsCfgUnreadable ["steam"] rfl rfl,
    C5_config_mapping_errors.2.2.1 fsCfgParseErr ["steam"] "unexpected token" rfl rfl,
    C5_config_mapping_errors.2.2.2.1 fsCfgNoSoftware ["steam"]
      { key := "InstallConfigStore", value := .obj [] } rfl rfl rfl,
    C5_config_mapping_errors.2.2.2.2.1 fsCfgEmptyMapping ["steam"] (configDoc []) rfl rfl rfl,
    C5_config_mapping_errors.2.2.2.2.2 fsCfgUnreadable ["steam"] rfl⟩

theorem isErr_shortcut_entries :
    ∀ l : List Json, (SteamUtil.shortcut_entries l).isErr = false := by
  intro l
  induction l with
  | nil => rfl
  | cons f rest ih =>
    simp only [SteamUtil.shortcut_entries]
    split
    · rfl
    · split
      · rfl
      · rename_i h2
        rw [h2] at ih
        simp [PResult.isErr] at ih
      · rfl

theorem isErr_shortcut_apps_of_json (j : Json) :
    (SteamUtil.shortcut_apps_of_json j).isErr = false := by
  unfold SteamUtil.shortcut_apps_of_json
  split
  · rfl
  · exact isErr_shortcut_entries _

theorem isErr_user_shortcut_apps (u : String × Fs) :
    (SteamUtil.user_shortcut_apps u).isErr = false := by
  unfold SteamUtil.user_shortcut_apps
  split
  · rfl
  · split
    · rfl
    · split
      · rfl
      · exact isErr_shortcut_apps_of_json _

theorem isErr_shortcuts_fold :
    ∀ l : List (String × Fs), (SteamUtil.shortcuts_fold l).isErr = false := by
  intro l
  induction l with
  | nil => rfl
  | cons u us ih =>
    simp only [SteamUtil.shortcuts_fold]
    split
    · split
      · rfl
      · rename_i h2
        rw [h2] at ih
        simp [PResult.isErr] at ih
      · rfl
    · rename_i h
      have hp := isErr_user_shortcut_apps u
      rw [h] at hp
      simp [PResult.isErr] at hp
    · rfl

theorem shortcuts_fold_concat :
    ∀ entries : List (String × Fs),
      (∀ u ∈ entries, SteamUtil.user_shortcut_apps u ≠ .panicked) →
      SteamUtil.shortcuts_fold entries =
        .ok (entries.flatMap (fun u => (SteamUtil.user_shortcut_apps u).okOrNil)) := by
  intro entries
  induction entries with
  | nil => intro _; rfl
  | cons u us ih =>
    intro h
    obtain ⟨a, ha⟩ := eq_ok_of_not_err_panicked _ (isErr_user_shortcut_apps u)
      (h u (List.mem_cons_self u us))
    rw [SteamUtil.shortcuts_fold, ha, ih (fun x hx => h x (List.mem_cons_of_mem u hx))]
    simp [PResult.okOrNil, ha]

/-- Claim C9: `list_shortcuts` never returns an error value; a missing or
unreadable `userdata` directory yields `Ok` with no entries; a stray file
among the users, a user directory without a shortcuts file, and a shortcuts
file whose bytes fail binary decoding (which includes an unreadable file,
whose read leaves an empty, undecodable buffer) each contribute no entries;
and whenever no user's record extraction panics the call returns `Ok` with
exactly the entries gathered from the users, in order. -/
theorem C9_list_shortcuts_total :
    (∀ (fs : Fs) (sp : List String), (SteamUtil.list_shortcuts fs sp).isErr = false) ∧
    (∀ (fs : Fs) (sp : List String), fs.read_dir (sp ++ ["userdata"]) = none →
      SteamUtil.list_shortcuts fs sp = .ok []) ∧
    (∀ (name : String) (d : FileData),
      SteamUtil.user_shortcut_apps (name, .file d) = .ok []) ∧
    (∀ (name : String) (rd : Bool) (es : List (String × Fs)),
      (Fs.dir rd es).lookup ["config", "shortcuts.vdf"] = none →
      SteamUtil.user_shortcut_apps (name, .dir rd es) = .ok []) ∧
    (∀ (name : String) (rd : Bool) (es : List (String × Fs)) (sf : Fs) (msg : String),
      (Fs.dir rd es).lookup ["config", "shortcuts.vdf"] = some sf →
      sf.readBinaryJson = .error msg →
      SteamUtil.user_shortcut_apps (name, .dir rd es) = .ok []) ∧
    (∀ (fs : Fs) (sp : List String) (entries : List (String × Fs)),
      fs.read_dir (sp ++ ["userdata"]) = some entries →
      (∀ u ∈ entries, SteamUtil.user_shortcut_apps u ≠ .panicked) →
      SteamUtil.list_shortcuts fs sp =
        .ok (entries.flatMap (fun u => (SteamUtil.user_shortcut_apps u).okOrNil))) := by
  refine ⟨?_, ?_, ?_, ?_, ?_, ?_⟩
  · intro fs sp
    unfold SteamUtil.list_shortcuts
    split
    · rfl
    · exact isErr_shortcuts_fold _
  · intro fs sp h
    rw [SteamUtil.list_shortcuts, h]
  · intro name d
    rfl
  · intro name rd es h
    simp [SteamUtil.user_shortcut_apps, SteamUtil.isDirEntry, h]
  · intro name rd es sf msg h1 h2
    simp [SteamUtil.user_shortcut_apps, SteamUtil.isDirEntry, h1, h2]
  · intro fs sp entries h1 h2
    rw [SteamUtil.list_shortcuts, h1]
    exact shortcuts_fold_concat entries h2

/-- Witness for C9 at concrete filesystems: every skip mode at once, and a
root with no `userdata` directory. -/
theorem C9_list_shortcuts_total_witness :
    SteamUtil.list_shortcuts fsShortcuts ["steam"] =
      .ok [{ shortcut := true, app_id := 123, name := "An Anime Game Launcher" }] ∧
    SteamUtil.list_shortcuts fsDup ["steam"] = .ok [] := by
  constructor
  · have h := C9_list_shortcuts_total.2.2.2.2.2 fsShortcuts ["steam"] shortcutUsers
      rfl (by decide)
    exact h.trans (by decide)
  · exact C9_list_shortcuts_total.2.1 fsDup ["steam"] rfl

theorem userdata_keys_fold_invariant (installed : List SteamApp) :
    ∀ (keys : List String) (acc l : List SteamApp),
      acc.Nodup → (∀ a ∈ acc, a ∈ installed) →
      SteamUtil.userdata_keys_fold installed keys acc = .ok l →
      l.Nodup ∧ ∀ a ∈ l, a ∈ installed := by
  intro keys
  induction keys with
  | nil =>
    intro acc l h1 h2 h3
    rw [SteamUtil.userdata_keys_fold] at h3
    cases h3
    exact ⟨h1, h2⟩
  | cons key rest ih =>
    intro acc l h1 h2 h3
    rw [SteamUtil.userdata_keys_fold] at h3
    split at h3
    · simp at h3
    · rename_i k hp
      split at h3
      · rename_i app hf
        have hmem : app ∈ installed := List.mem_of_find?_eq_some hf
        have hnotin : app ∉ acc := by
          have hpred := List.find?_some hf
          simp at hpred
          exact hpred.2
        refine ih (acc ++ [app]) l ?_ ?_ h3
        · rw [List.nodup_append]
          refine ⟨h1, List.nodup_singleton app, ?_⟩
          intro a ha hb
          simp at hb
          subst hb
          exact hnotin ha
        · intro a ha
          rcases List.mem_append.mp ha with hx | hx
          · exact h2 a hx
          · simp at hx
            subst hx
            exact hmem
      · exact ih acc l h1 h2 h3

theorem userdata_users_fold_invariant (installed : List SteamApp) :
    ∀ (users : List (String × Fs)) (acc l : List SteamApp),
      acc.Nodup → (∀ a ∈ acc, a ∈ installed) →
      SteamUtil.userdata_users_fold installed users acc = .ok l →
      l.Nodup ∧ ∀ a ∈ l, a ∈ installed := by
  intro users
  induction users with
  | nil =>
    intro acc l h1 h2 h3
    rw [SteamUtil.userdata_users_fold] at h3
    cases h3
    exact ⟨h1, h2⟩
  | cons u us ih =>
    intro acc l h1 h2 h3
    rw [SteamUtil.userdata_users_fold] at h3
    split at h3
    · split at h3
      · exact ih acc l h1 h2 h3
      · exact ih acc l h1 h2 h3
      · rename_i v hr
        split at h3
        · rename_i acc2 hu
          rw [SteamUtil.userdata_user_apps] at hu
          split at hu
          · simp at hu
          · rename_i aobj ho
            obtain ⟨h4, h5⟩ :=
              userdata_keys_fold_invariant installed (objKeys aobj) acc acc2 h1 h2 hu
            exact ih acc2 l h4 h5 h3
        · simp at h3
        · simp at h3
    · exact ih acc l h1 h2 h3

/-- Claim C10: whenever `list_installed_applications_by_userdata` succeeds,
its list has no duplicate entries and every entry also occurs in the list
`list_installed_applications` returns on the same filesystem. -/
theorem C10_userdata_nodup_subset (fs : Fs) (steam_path : List String) (l : List SteamApp)
    (h : SteamUtil.list_installed_applications_by_userdata fs steam_path = .ok l) :
    l.Nodup ∧ ∃ installed,
      SteamUtil.list_installed_applications fs steam_path = .ok installed ∧
      ∀ a ∈ l, a ∈ installed := by
  rw [SteamUtil.list_installed_applications_by_userdata] at h
  rcases hi : SteamUtil.list_installed_applications fs steam_path with installed | e | _
  · rw [hi] at h
    rcases hd : fs.read_dir (steam_path ++ ["userdata"]) with _ | entries
    · rw [hd] at h
      simp at h
    · rw [hd] at h
      obtain ⟨h1, h2⟩ := userdata_users_fold_invariant installed entries [] l
        (List.nodup_nil) (by intro a ha; cases ha) h
      exact ⟨h1, installed, rfl, h2⟩
  · rw [hi] at h
    simp at h
  · rw [hi] at h
    simp at h

/-- Witness for C10 at a concrete filesystem where the call succeeds. -/
theorem C10_userdata_nodup_subset_witness :
    ([{ shortcut := false, app_id := 730, name := "Game A" }] : List SteamApp).Nodup ∧
    ∃ installed,
      SteamUtil.list_installed_applications fsUser ["steam"] = .ok installed ∧
      ∀ a ∈ ([{ shortcut := false, app_id := 730, name := "Game A" }] : List SteamApp),
        a ∈ installed :=
  C10_userdata_nodup_subset fsUser ["steam"]
    [{ shortcut := false, app_id := 730, name := "Game A" }] (by decide)

end DeckyWineCellar
